import Mathlib

/-!
Verification of the vector-environment layer of the `gym` repository.

Part 1 embeds the code of `src/gym/vector/__init__.py`: the `make` entry
point and the `_make_env` factory closure it builds.  Part 2 models the
executors (`SyncVectorEnv`, `AsyncVectorEnv`), whose code is imported by
the source file but absent from the repository snapshot, from the
specification.
-/

namespace GymVector

/-- A Python value passed as the `wrappers` argument of `make`: either a
callable (modelled by its action on environments), an iterable of further
values, or any other object (neither callable nor iterable). -/
inductive PyWrapper (E : Type) where
  | callableObj (f : E → E)
  | iterableObj (items : List (PyWrapper E))
  | otherObj

/-- `callable(w)` on a wrappers value. -/
def PyWrapper.isCallable {E : Type} : PyWrapper E → Bool
  | .callableObj _ => true
  | _ => false

/-- Application `w(env)` of a wrappers value; only ever used under the
`isCallable` guard of `_make_env`, mirroring the Python loop. -/
def PyWrapper.applyTo {E : Type} : PyWrapper E → E → E
  | .callableObj f, env => f env
  | _, env => env

/-- Errors that can surface when a factory closure is invoked. -/
inductive FactoryError where
  | registryError (msg : String)
  | notImplementedError
deriving DecidableEq, Repr

/-- Modelled from the spec: the global process-wide registry consulted by
`gym.envs.make` (imported by the source file but not part of it), which
constructs one environment instance from a textual id and keyword
arguments, or fails. -/
abbrev Registry (E K : Type) : Type := String → K → Except String E

/-- The body of the closure `_make_env` defined inside `make`
(src/gym/vector/__init__.py lines 44-56): construct the base instance
from the registry, then resolve the wrappers argument. -/
def _make_env {E K : Type} (registry : Registry E K) (id : String) (kwargs : K)
    (wrappers : Option (PyWrapper E)) : Except FactoryError E :=
  match registry id kwargs with
  | Except.error msg => Except.error (FactoryError.registryError msg)
  | Except.ok env =>
    match wrappers with
    | none => Except.ok env
    | some w =>
      match w with
      | .callableObj f => Except.ok (f env)
      | .iterableObj items =>
        if items.all PyWrapper.isCallable then
          Except.ok (items.foldl (fun e wr => wr.applyTo e) env)
        else
          Except.error FactoryError.notImplementedError
      | .otherObj => Except.error FactoryError.notImplementedError

/-- One factory produced by `make`: the closure `_make_env` defunctionalised
as the data it captures (`id`, `kwargs`, `wrappers`).  Invoking the closure
is `EnvFactory.invoke`. -/
structure EnvFactory (E K : Type) where
  id : String
  kwargs : K
  wrappers : Option (PyWrapper E)

/-- Invoking a factory closure: runs `_make_env` with the captured data
against the registry as it stands at invocation time. -/
def EnvFactory.invoke {E K : Type} (f : EnvFactory E K) (registry : Registry E K) :
    Except FactoryError E :=
  _make_env registry f.id f.kwargs f.wrappers

/-- The return value of `make`: either an `AsyncVectorEnv` (parallel
executor) or a `SyncVectorEnv` (sequential executor), each holding the
list of factories it was built from. -/
inductive MadeVectorEnv (F : Type) where
  | asyncEnv (env_fns : List F)
  | syncEnv (env_fns : List F)

/-- The factory list a `make` result was built from. -/
def MadeVectorEnv.env_fns {F : Type} : MadeVectorEnv F → List F
  | .asyncEnv fns => fns
  | .syncEnv fns => fns

/-- `gym.vector.make` (src/gym/vector/__init__.py lines 13-59): build the
factory closure, replicate it `num_envs` times, and dispatch on
`asynchronous`. -/
def make {E K : Type} (id : String) (num_envs : Nat) (asynchronous : Bool)
    (wrappers : Option (PyWrapper E)) (kwargs : K) :
    MadeVectorEnv (EnvFactory E K) :=
  let env_fns := List.replicate num_envs (EnvFactory.mk id kwargs wrappers)
  if asynchronous then .asyncEnv env_fns else .syncEnv env_fns

/-- The check `_make_env` performs on the wrappers argument: `None`, a
callable, or an iterable all of whose members are callable. -/
def validWrappersArg {E : Type} : Option (PyWrapper E) → Bool
  | none => true
  | some (.callableObj _) => true
  | some (.iterableObj items) => items.all PyWrapper.isCallable
  | some .otherObj => false

/-!
Part 2: the executors.  `SyncVectorEnv` and `AsyncVectorEnv` are imported
by src/gym/vector/__init__.py from modules that are not in the repository
snapshot, so they are modelled from the specification (sections 3-5 of the
spec: data model, the VectorEnv contract, sequential executor, parallel
executor with its worker protocol, and the result batcher).
-/

/-- Modelled from the spec: one deterministic environment instance
(the Instance contract of spec section 6), as a pure transition system:
an initial internal state, `reset(seed) -> (state, observation)` and
`step(state, action) -> (state, observation, reward, terminated,
truncated)`. -/
structure EnvInstance (S O A : Type) where
  init : S
  reset : Option Nat → S × O
  step : S → A → S × O × Int × Bool × Bool

/-- Modelled from the spec: the per-slot result of a step — observation,
scalar reward, terminated flag, truncated flag (the Transition Record of
spec section 3). -/
structure TransitionRecord (O : Type) where
  observation : O
  reward : Int
  terminated : Bool
  truncated : Bool
deriving DecidableEq, Repr

/-- Modelled from the spec: a Batched Transition — N transition records
combined into slot-indexed batches (spec section 3). -/
structure BatchedTransition (O : Type) where
  observations : List O
  rewards : List Int
  terminateds : List Bool
  truncateds : List Bool
deriving DecidableEq, Repr

/-- Modelled from the spec: the Result Batcher (spec section 4.5) — stack
N slot-ordered transition records into one batched transition. -/
def batchTransitions {O : Type} (records : List (TransitionRecord O)) :
    BatchedTransition O :=
  ⟨records.map TransitionRecord.observation, records.map TransitionRecord.reward,
   records.map TransitionRecord.terminated, records.map TransitionRecord.truncated⟩

/-- Modelled from the spec: the executor state machine (spec section 3). -/
inductive ExecState where
  | DEFAULT
  | WAITING_RESET
  | WAITING_STEP
  | CLOSED
deriving DecidableEq, Repr

/-- Modelled from the spec: the error taxonomy of spec section 7. -/
inductive VecError where
  | ClosedError
  | ConcurrentCallError
  | InvalidBatchSizeError
  | WorkerError (slot : Nat) (msg : String)
  | SpaceMismatchError
deriving DecidableEq, Repr

/-- Modelled from the spec: the mutable per-slot bookkeeping shared by both
executors — the instance's internal state, whether the previous step ended
the episode (so the auto-reset policy applies to the next step), and the
pending seed assigned by `seed`, used by the next reset. -/
structure EpisodeCore (S : Type) where
  state : S
  needsReset : Bool
  pendingSeed : Option Nat

/-- Modelled from the spec: resolve the seed for a reset — an explicit seed
passed to `reset` wins, otherwise the slot's pending seed is used. -/
def resolveSeed (explicit : Option Nat) (pending : Option Nat) : Option Nat :=
  match explicit with
  | some s => some s
  | none => pending

/-- Modelled from the spec: the Sequential Executor (spec section 4.2) —
holds each instance with its per-slot bookkeeping, in slot order, plus the
executor state. -/
structure SyncVectorEnv (S O A : Type) where
  envs : List (EnvInstance S O A × EpisodeCore S)
  execState : ExecState

/-- One slot of the sequential executor's reset: reset the instance with
the resolved seed, clear the episode-ended flag and consume the pending
seed. -/
def syncSlotReset {S O A : Type} (env : EnvInstance S O A) (core : EpisodeCore S)
    (seed : Option Nat) : EpisodeCore S × O :=
  let p := env.reset (resolveSeed seed core.pendingSeed)
  (⟨p.1, false, none⟩, p.2)

/-- One slot of the sequential executor's step, including the auto-reset
policy (spec section 4.1): if the previous step ended the episode, the
instance is reset with the pending seed instead of evaluating the stale
action, reporting reward 0 and both flags false; otherwise the action is
evaluated and the episode-ended flag recorded. -/
def syncSlotStep {S O A : Type} (env : EnvInstance S O A) (core : EpisodeCore S)
    (a : A) : EpisodeCore S × TransitionRecord O :=
  if core.needsReset then
    let p := env.reset core.pendingSeed
    (⟨p.1, false, none⟩, ⟨p.2, 0, false, false⟩)
  else
    let (s, o, r, t, tr) := env.step core.state a
    (⟨s, t || tr, core.pendingSeed⟩, ⟨o, r, t, tr⟩)

/-- The sequential executor's work on one slot during a batched reset:
the updated slot paired with its initial observation. -/
def syncResetEntry {S O A : Type} (seed : Option Nat)
    (p : EnvInstance S O A × EpisodeCore S) :
    (EnvInstance S O A × EpisodeCore S) × O :=
  ((p.1, (syncSlotReset p.1 p.2 seed).1), (syncSlotReset p.1 p.2 seed).2)

/-- The sequential executor's work on one slot during a batched step:
the updated slot paired with its transition record. -/
def syncStepEntry {S O A : Type} (p : EnvInstance S O A × EpisodeCore S) (a : A) :
    (EnvInstance S O A × EpisodeCore S) × TransitionRecord O :=
  ((p.1, (syncSlotStep p.1 p.2 a).1), (syncSlotStep p.1 p.2 a).2)

/-- Modelled from the spec: the sequential executor's batched `reset` —
fails on a closed or busy executor, otherwise resets every slot in slot
order and returns the batched initial observations. -/
def SyncVectorEnv.resetCall {S O A : Type} (v : SyncVectorEnv S O A)
    (seed : Option Nat) :
    Except VecError (SyncVectorEnv S O A × List O) :=
  match v.execState with
  | .CLOSED => Except.error VecError.ClosedError
  | .DEFAULT =>
    let rs := v.envs.map (syncResetEntry seed)
    Except.ok (⟨rs.map Prod.fst, ExecState.DEFAULT⟩, rs.map Prod.snd)
  | _ => Except.error VecError.ConcurrentCallError

/-- Modelled from the spec: the sequential executor's batched `step` —
fails on a closed or busy executor or a wrong-length action batch,
otherwise steps every slot in slot order within the caller's control flow
and batches the transition records. -/
def SyncVectorEnv.stepCall {S O A : Type} (v : SyncVectorEnv S O A)
    (actions : List A) :
    Except VecError (SyncVectorEnv S O A × BatchedTransition O) :=
  match v.execState with
  | .CLOSED => Except.error VecError.ClosedError
  | .DEFAULT =>
    if actions.length = v.envs.length then
      let rs := List.zipWith syncStepEntry v.envs actions
      Except.ok (⟨rs.map Prod.fst, ExecState.DEFAULT⟩,
        batchTransitions (rs.map Prod.snd))
    else
      Except.error VecError.InvalidBatchSizeError
  | _ => Except.error VecError.ConcurrentCallError

/-- Modelled from the spec: the sequential executor's `seed` — assigns
per-slot pending seeds used by the next reset. -/
def SyncVectorEnv.seedCall {S O A : Type} (v : SyncVectorEnv S O A)
    (seeds : List (Option Nat)) :
    Except VecError (SyncVectorEnv S O A) :=
  match v.execState with
  | .CLOSED => Except.error VecError.ClosedError
  | .DEFAULT =>
    if seeds.length = v.envs.length then
      Except.ok ⟨List.zipWith (fun (p : EnvInstance S O A × EpisodeCore S) sd =>
        (p.1, { p.2 with pendingSeed := sd })) v.envs seeds, ExecState.DEFAULT⟩
    else
      Except.error VecError.InvalidBatchSizeError
  | _ => Except.error VecError.ConcurrentCallError

/-- Modelled from the spec: the sequential executor's `close` — a no-op if
already closed, otherwise releases the per-slot resources and moves the
state to CLOSED.  It never fails, so it is total. -/
def SyncVectorEnv.closeCall {S O A : Type} (v : SyncVectorEnv S O A) :
    SyncVectorEnv S O A :=
  match v.execState with
  | .CLOSED => v
  | _ => ⟨v.envs, ExecState.CLOSED⟩

/-- Modelled from the spec: the command set sent from the parent to a
worker (spec section 4.3). -/
inductive WorkerCommand (A : Type) where
  | RESET (seed : Option Nat)
  | STEP (a : A)
  | SEED (seed : Option Nat)
  | CLOSE

/-- Modelled from the spec: a worker's response payload — an observation
(for RESET), a transition record (for STEP), or a bare acknowledgement
(for SEED and CLOSE). -/
inductive WorkerResponse (O : Type) where
  | obsPayload (o : O)
  | transitionPayload (r : TransitionRecord O)
  | ack
deriving DecidableEq, Repr

/-- Modelled from the spec: the Worker Loop body (spec section 4.4) —
dispatch one command to the exclusively owned instance and wrap the result
in a response.  The auto-reset policy is applied inside the worker, so the
parent only ever sees the final record. -/
def workerProcess {S O A : Type} (env : EnvInstance S O A) (core : EpisodeCore S) :
    WorkerCommand A → EpisodeCore S × WorkerResponse O
  | .RESET seed =>
    let p := env.reset (resolveSeed seed core.pendingSeed)
    (⟨p.1, false, none⟩, .obsPayload p.2)
  | .STEP a =>
    if core.needsReset then
      let p := env.reset core.pendingSeed
      (⟨p.1, false, none⟩, .transitionPayload ⟨p.2, 0, false, false⟩)
    else
      let (s, o, r, t, tr) := env.step core.state a
      (⟨s, t || tr, core.pendingSeed⟩, .transitionPayload ⟨o, r, t, tr⟩)
  | .SEED seed => ({ core with pendingSeed := seed }, .ack)
  | .CLOSE => (core, .ack)

/-- Modelled from the spec: a Worker Handle (spec section 3) — one worker
process owning exactly one instance with its bookkeeping, plus a liveness
flag for the process itself. -/
structure WorkerHandle (S O A : Type) where
  env : EnvInstance S O A
  core : EpisodeCore S
  alive : Bool

/-- Modelled from the spec: the Parallel Executor (spec section 4.3) —
owns N worker handles and the executor state. -/
structure AsyncVectorEnv (S O A : Type) where
  workers : List (WorkerHandle S O A)
  execState : ExecState

/-- The parallel executor's interaction with one worker during a batched
reset: send RESET, receive the response. -/
def asyncResetEntry {S O A : Type} (seed : Option Nat) (w : WorkerHandle S O A) :
    WorkerHandle S O A × WorkerResponse O :=
  ({ w with core := (workerProcess w.env w.core (WorkerCommand.RESET seed)).1 },
   (workerProcess w.env w.core (WorkerCommand.RESET seed)).2)

/-- The parallel executor's interaction with one worker during a batched
step: send STEP with the slot's action, receive the response. -/
def asyncStepEntry {S O A : Type} (w : WorkerHandle S O A) (a : A) :
    WorkerHandle S O A × WorkerResponse O :=
  ({ w with core := (workerProcess w.env w.core (WorkerCommand.STEP a)).1 },
   (workerProcess w.env w.core (WorkerCommand.STEP a)).2)

/-- Decode the N slot-ordered responses to a RESET broadcast, unwrapping
the observation payloads; `none` on a protocol violation. -/
def decodeObservations {O : Type} : List (WorkerResponse O) → Option (List O)
  | [] => some []
  | .obsPayload o :: rest => (decodeObservations rest).map (fun os => o :: os)
  | _ :: _ => none

/-- Decode the N slot-ordered responses to a STEP broadcast, unwrapping
the transition payloads; `none` on a protocol violation. -/
def decodeTransitions {O : Type} : List (WorkerResponse O) →
    Option (List (TransitionRecord O))
  | [] => some []
  | .transitionPayload r :: rest => (decodeTransitions rest).map (fun rs => r :: rs)
  | _ :: _ => none

/-- Modelled from the spec: the parallel executor's batched `reset` — fire
a RESET command at every worker, collect the responses in slot order,
unwrap the observation payloads.  With deterministic instances every
response succeeds, so the failure path of spec section 4.3 step 6 is only
reachable through a protocol violation. -/
def AsyncVectorEnv.resetCall {S O A : Type} (v : AsyncVectorEnv S O A)
    (seed : Option Nat) :
    Except VecError (AsyncVectorEnv S O A × List O) :=
  match v.execState with
  | .CLOSED => Except.error VecError.ClosedError
  | .DEFAULT =>
    let fired := v.workers.map (asyncResetEntry seed)
    match decodeObservations (fired.map Prod.snd) with
    | some os => Except.ok (⟨fired.map Prod.fst, ExecState.DEFAULT⟩, os)
    | none => Except.error (VecError.WorkerError 0 "protocol violation")
  | _ => Except.error VecError.ConcurrentCallError

/-- Modelled from the spec: the parallel executor's batched `step` — fire a
STEP command with its slot's action at every worker without waiting, then
collect all responses in slot order, unwrap the transition payloads and
run the result batcher. -/
def AsyncVectorEnv.stepCall {S O A : Type} (v : AsyncVectorEnv S O A)
    (actions : List A) :
    Except VecError (AsyncVectorEnv S O A × BatchedTransition O) :=
  match v.execState with
  | .CLOSED => Except.error VecError.ClosedError
  | .DEFAULT =>
    if actions.length = v.workers.length then
      let fired := List.zipWith asyncStepEntry v.workers actions
      match decodeTransitions (fired.map Prod.snd) with
      | some rs => Except.ok (⟨fired.map Prod.fst, ExecState.DEFAULT⟩,
          batchTransitions rs)
      | none => Except.error (VecError.WorkerError 0 "protocol violation")
    else
      Except.error VecError.InvalidBatchSizeError
  | _ => Except.error VecError.ConcurrentCallError

/-- Modelled from the spec: the parallel executor's `seed` — fire a SEED
command at every worker with its slot's seed. -/
def AsyncVectorEnv.seedCall {S O A : Type} (v : AsyncVectorEnv S O A)
    (seeds : List (Option Nat)) :
    Except VecError (AsyncVectorEnv S O A) :=
  match v.execState with
  | .CLOSED => Except.error VecError.ClosedError
  | .DEFAULT =>
    if seeds.length = v.workers.length then
      Except.ok ⟨List.zipWith (fun (w : WorkerHandle S O A) sd =>
        { w with core := (workerProcess w.env w.core (WorkerCommand.SEED sd)).1 })
        v.workers seeds, ExecState.DEFAULT⟩
    else
      Except.error VecError.InvalidBatchSizeError
  | _ => Except.error VecError.ConcurrentCallError

/-- Modelled from the spec: the parallel executor's `close` — always
accepted and idempotent: a no-op if already CLOSED, otherwise terminates
every worker handle and moves the state to CLOSED.  It never fails, so it
is total. -/
def AsyncVectorEnv.closeCall {S O A : Type} (v : AsyncVectorEnv S O A) :
    AsyncVectorEnv S O A :=
  match v.execState with
  | .CLOSED => v
  | _ => ⟨v.workers.map (fun w => { w with alive := false }), ExecState.CLOSED⟩

/-- Build a sequential executor from the per-slot instances, as the
instance factories construct them. -/
def initSync {S O A : Type} (insts : List (EnvInstance S O A)) :
    SyncVectorEnv S O A :=
  ⟨insts.map (fun e => (e, ⟨e.init, false, none⟩)), ExecState.DEFAULT⟩

/-- Build a parallel executor from the same per-slot instances, one live
worker per slot. -/
def initAsync {S O A : Type} (insts : List (EnvInstance S O A)) :
    AsyncVectorEnv S O A :=
  ⟨insts.map (fun e => ⟨e, ⟨e.init, false, none⟩, true⟩), ExecState.DEFAULT⟩

/-- Run a sequence of batched step calls on the sequential executor,
collecting every batched transition. -/
def runSync {S O A : Type} (v : SyncVectorEnv S O A) :
    List (List A) → Except VecError (SyncVectorEnv S O A × List (BatchedTransition O))
  | [] => Except.ok (v, [])
  | acts :: rest =>
    match v.stepCall acts with
    | Except.error e => Except.error e
    | Except.ok p =>
      match runSync p.1 rest with
      | Except.error e => Except.error e
      | Except.ok q => Except.ok (q.1, p.2 :: q.2)

/-- Run a sequence of batched step calls on the parallel executor,
collecting every batched transition. -/
def runAsync {S O A : Type} (v : AsyncVectorEnv S O A) :
    List (List A) → Except VecError (AsyncVectorEnv S O A × List (BatchedTransition O))
  | [] => Except.ok (v, [])
  | acts :: rest =>
    match v.stepCall acts with
    | Except.error e => Except.error e
    | Except.ok p =>
      match runAsync p.1 rest with
      | Except.error e => Except.error e
      | Except.ok q => Except.ok (q.1, p.2 :: q.2)

/-- The caller-observable trace of a sequential run: reset once, then step
through the action batches; batched reset observations plus all batched
transitions. -/
def syncRollout {S O A : Type} (insts : List (EnvInstance S O A))
    (seed : Option Nat) (actionSeqs : List (List A)) :
    Except VecError (List O × List (BatchedTransition O)) :=
  match (initSync insts).resetCall seed with
  | Except.error e => Except.error e
  | Except.ok p =>
    match runSync p.1 actionSeqs with
    | Except.error e => Except.error e
    | Except.ok q => Except.ok (p.2, q.2)

/-- The caller-observable trace of a parallel run on the same instances. -/
def asyncRollout {S O A : Type} (insts : List (EnvInstance S O A))
    (seed : Option Nat) (actionSeqs : List (List A)) :
    Except VecError (List O × List (BatchedTransition O)) :=
  match (initAsync insts).resetCall seed with
  | Except.error e => Except.error e
  | Except.ok p =>
    match runAsync p.1 actionSeqs with
    | Except.error e => Except.error e
    | Except.ok q => Except.ok (p.2, q.2)

/-- The per-slot view a worker handle contributes to the observable
contract: its instance and bookkeeping, forgetting the process liveness. -/
def WorkerHandle.toSlot {S O A : Type} (w : WorkerHandle S O A) :
    EnvInstance S O A × EpisodeCore S :=
  (w.env, w.core)

/-- The sequential-executor view of a parallel executor's state: the
simulation relation of the equivalence proof. -/
def AsyncVectorEnv.toSync {S O A : Type} (v : AsyncVectorEnv S O A) :
    SyncVectorEnv S O A :=
  ⟨v.workers.map WorkerHandle.toSlot, v.execState⟩

/-- The counter instance of spec section 8: observation is the step count,
the episode terminates at count 2, reward 1 per step. -/
def counterInstance : EnvInstance Nat Nat Nat :=
  ⟨0, fun _ => (0, 0), fun s _ => (s + 1, s + 1, 1, decide (2 ≤ s + 1), false)⟩

/-!
Theorems about `make` and the factory closure (src/gym/vector/__init__.py).
-/

/-- C2: for every id, num_envs, wrappers and kwargs, `make` returns an
`AsyncVectorEnv` (parallel executor) built from the factory list when
`asynchronous` is true, and a `SyncVectorEnv` (sequential executor) built
from the same factory list when it is false; the codomain admits no other
result. -/
theorem make_dispatch {E K : Type} (id : String) (n : Nat) (a : Bool)
    (w : Option (PyWrapper E)) (k : K) :
    make id n a w k =
      if a then MadeVectorEnv.asyncEnv (List.replicate n (EnvFactory.mk id k w))
      else MadeVectorEnv.syncEnv (List.replicate n (EnvFactory.mk id k w)) := rfl

/-- C3: for every num_envs n, `make` supplies exactly n factories to the
chosen executor, and the list is the n-fold replication of one single
factory closure, so every slot constructs an identically configured
instance. -/
theorem make_env_fns_replicate {E K : Type} (id : String) (n : Nat) (a : Bool)
    (w : Option (PyWrapper E)) (k : K) :
    (make id n a w k).env_fns = List.replicate n (EnvFactory.mk id k w) := by
  cases a <;> rfl

/-- C4: wrapper composition is resolved inside the factory: with a single
callable w the factory returns w applied to the freshly constructed base
instance, and with a sequence [w1, ..., wk] it returns the left fold, i.e.
wk(...(w2(w1(base)))...), the first wrapper innermost. -/
theorem factory_wrapper_composition {E K : Type} (registry : Registry E K)
    (id : String) (k : K) (base : E) (f : E → E) (ws : List (E → E))
    (h : registry id k = Except.ok base) :
    (EnvFactory.mk id k (some (PyWrapper.callableObj f))).invoke registry =
      Except.ok (f base) ∧
    (EnvFactory.mk id k
        (some (PyWrapper.iterableObj (ws.map PyWrapper.callableObj)))).invoke
        registry =
      Except.ok (ws.foldl (fun e g => g e) base) := by
  constructor <;> unfold EnvFactory.invoke _make_env <;> rw [h]
  have hall : (ws.map PyWrapper.callableObj).all PyWrapper.isCallable = true := by
    simp [List.all_map, Function.comp, PyWrapper.isCallable]
  show (if (ws.map PyWrapper.callableObj).all PyWrapper.isCallable = true then _ else _) = _
  rw [if_pos hall, List.foldl_map]
  rfl

/-- Witness for C4 at a concrete registry, base instance and wrappers. -/
theorem factory_wrapper_composition_witness :
    (fun (_ : String) (_ : Unit) => (Except.ok 5 : Except String Nat))
        "CartPole-v1" () = Except.ok 5 ∧
    ((EnvFactory.mk "CartPole-v1" ()
        (some (PyWrapper.callableObj Nat.succ))).invoke
        (fun _ _ => Except.ok 5) = Except.ok (Nat.succ 5) ∧
      (EnvFactory.mk "CartPole-v1" ()
        (some (PyWrapper.iterableObj
          ([Nat.succ, Nat.succ].map PyWrapper.callableObj)))).invoke
        (fun _ _ => Except.ok 5) =
      Except.ok ([Nat.succ, Nat.succ].foldl (fun e g => g e) 5)) :=
  ⟨rfl, factory_wrapper_composition (fun _ _ => Except.ok 5) "CartPole-v1" ()
    5 Nat.succ [Nat.succ, Nat.succ] rfl⟩

/-- C5: `make` performs no registry lookup and constructs no instance:
even when the registry has no entry for the id, `make` still returns the
full factory list, and the failure surfaces only when a factory is
invoked, as a registry error. -/
theorem make_defers_registry_lookup {E K : Type} (registry : Registry E K)
    (id : String) (n : Nat) (a : Bool) (w : Option (PyWrapper E)) (k : K)
    (msg : String) (h : registry id k = Except.error msg) :
    (make id n a w k).env_fns = List.replicate n (EnvFactory.mk id k w) ∧
    (EnvFactory.mk id k w).invoke registry =
      Except.error (FactoryError.registryError msg) := by
  refine ⟨by cases a <;> rfl, ?_⟩
  unfold EnvFactory.invoke _make_env
  rw [h]

/-- Witness for C5 at a concrete empty registry. -/
theorem make_defers_registry_lookup_witness :
    (fun (_ : String) (_ : Unit) => (Except.error "NoSuchEnv" : Except String Nat))
        "CartPole-v1" () = Except.error "NoSuchEnv" ∧
    ((make (E := Nat) "CartPole-v1" 2 true none ()).env_fns =
        List.replicate 2 (EnvFactory.mk "CartPole-v1" ()
          (none : Option (PyWrapper Nat))) ∧
      (EnvFactory.mk "CartPole-v1" () (none : Option (PyWrapper Nat))).invoke
          (fun _ _ => Except.error "NoSuchEnv") =
        Except.error (FactoryError.registryError "NoSuchEnv")) :=
  ⟨rfl, make_defers_registry_lookup
    ((fun _ _ => Except.error "NoSuchEnv") : Registry Nat Unit)
    "CartPole-v1" 2 true none () "NoSuchEnv" rfl⟩

/-- C8: an invalid wrappers argument (neither a callable nor an iterable
of callables) does not make `make` fail: the factory list is still
returned in full, and NotImplementedError surfaces only when a returned
factory is invoked (after the base instance is constructed). -/
theorem make_defers_wrapper_validation {E K : Type} (registry : Registry E K)
    (id : String) (n : Nat) (a : Bool) (k : K) (base : E) (w : PyWrapper E)
    (hreg : registry id k = Except.ok base)
    (hw : validWrappersArg (some w) = false) :
    (make id n a (some w) k).env_fns =
      List.replicate n (EnvFactory.mk id k (some w)) ∧
    (EnvFactory.mk id k (some w)).invoke registry =
      Except.error FactoryError.notImplementedError := by
  refine ⟨by cases a <;> rfl, ?_⟩
  unfold EnvFactory.invoke _make_env
  rw [hreg]
  cases w with
  | callableObj f => simp [validWrappersArg] at hw
  | iterableObj items =>
    simp only [validWrappersArg] at hw
    simp [hw]
  | otherObj => rfl

/-- Witness for C8 at a concrete non-callable wrappers argument. -/
theorem make_defers_wrapper_validation_witness :
    (fun (_ : String) (_ : Unit) => (Except.ok 5 : Except String Nat))
        "CartPole-v1" () = Except.ok 5 ∧
    validWrappersArg (some (PyWrapper.otherObj (E := Nat))) = false ∧
    ((make "CartPole-v1" 2 false (some (PyWrapper.otherObj (E := Nat))) ()).env_fns =
        List.replicate 2 (EnvFactory.mk "CartPole-v1" () (some PyWrapper.otherObj)) ∧
      (EnvFactory.mk "CartPole-v1" () (some (PyWrapper.otherObj (E := Nat)))).invoke
          (fun _ _ => Except.ok 5) =
        Except.error FactoryError.notImplementedError) :=
  ⟨rfl, rfl, make_defers_wrapper_validation (fun _ _ => Except.ok 5)
    "CartPole-v1" 2 false () 5 PyWrapper.otherObj rfl rfl⟩

/-- C9: the factory built from a single callable wrapper w and the factory
built from the one-element wrapper list [w] construct the same
environment: w applied exactly once to the base instance. -/
theorem single_wrapper_eq_singleton_list {E K : Type} (registry : Registry E K)
    (id : String) (k : K) (f : E → E) :
    (EnvFactory.mk id k (some (PyWrapper.callableObj f))).invoke registry =
      (EnvFactory.mk id k
        (some (PyWrapper.iterableObj [PyWrapper.callableObj f]))).invoke
        registry := by
  unfold EnvFactory.invoke _make_env
  cases registry id k <;> rfl

/-- C10: the factory built from the empty wrapper list behaves exactly like
the factory built from wrappers=None: it returns the base instance as the
registry constructs it, with no wrapper applied. -/
theorem empty_wrappers_eq_none {E K : Type} (registry : Registry E K)
    (id : String) (k : K) :
    (EnvFactory.mk id k
        (some (PyWrapper.iterableObj ([] : List (PyWrapper E))))).invoke registry =
      (EnvFactory.mk id k none).invoke registry ∧
    (EnvFactory.mk id k
        (some (PyWrapper.iterableObj ([] : List (PyWrapper E))))).invoke registry =
      (registry id k).mapError FactoryError.registryError := by
  constructor <;> · unfold EnvFactory.invoke _make_env; cases registry id k <;> rfl

/-!
Theorems about the executors (modelled from the spec).
-/

/-- C7: `close()` is idempotent on both executors: the first call moves the
state to CLOSED (terminating every worker handle on the parallel
executor), a second call changes nothing, and close never fails (it is a
total function, not a fallible one). -/
theorem close_idempotent {S O A : Type} (vs : SyncVectorEnv S O A)
    (va : AsyncVectorEnv S O A) :
    vs.closeCall.execState = ExecState.CLOSED ∧
    vs.closeCall.closeCall = vs.closeCall ∧
    va.closeCall.execState = ExecState.CLOSED ∧
    va.closeCall.closeCall = va.closeCall ∧
    (va.execState = ExecState.DEFAULT →
      (va.closeCall.workers.all fun w => !w.alive) = true) := by
  obtain ⟨es, s1⟩ := vs
  obtain ⟨ws, s2⟩ := va
  cases s1 <;> cases s2 <;>
    simp [SyncVectorEnv.closeCall, AsyncVectorEnv.closeCall, List.all_map,
      Function.comp]

/-- Witness for C7: a freshly constructed one-slot parallel executor is
fully terminated by close. -/
theorem close_idempotent_witness :
    (AsyncVectorEnv.mk [⟨counterInstance, ⟨0, false, none⟩, true⟩]
        ExecState.DEFAULT).execState = ExecState.DEFAULT ∧
    ((AsyncVectorEnv.mk [⟨counterInstance, ⟨0, false, none⟩, true⟩]
        ExecState.DEFAULT).closeCall.workers.all fun w => !w.alive) = true :=
  ⟨rfl,
    (close_idempotent
      (SyncVectorEnv.mk [(counterInstance, ⟨0, false, none⟩)] ExecState.DEFAULT)
      (AsyncVectorEnv.mk [⟨counterInstance, ⟨0, false, none⟩, true⟩]
        ExecState.DEFAULT)).2.2.2.2 rfl⟩

/-- After any per-slot step, the recorded episode-ended flag equals the
disjunction of the reported terminated and truncated flags. -/
theorem syncSlotStep_needsReset {S O A : Type} (e : EnvInstance S O A)
    (c : EpisodeCore S) (a : A) :
    (syncSlotStep e c a).1.needsReset =
      ((syncSlotStep e c a).2.terminated || (syncSlotStep e c a).2.truncated) := by
  rcases hstep : e.step c.state a with ⟨s, o, r, t, tr⟩
  cases h : c.needsReset <;> simp [syncSlotStep, h, hstep]

/-- A per-slot step on a slot whose episode just ended ignores the action:
it resets the instance with the pending seed and reports reward 0 and both
flags false. -/
theorem syncSlotStep_of_needsReset {S O A : Type} (e : EnvInstance S O A)
    (c : EpisodeCore S) (a : A) (h : c.needsReset = true) :
    syncSlotStep e c a =
      (⟨(e.reset c.pendingSeed).1, false, none⟩,
       ⟨(e.reset c.pendingSeed).2, 0, false, false⟩) := by
  simp [syncSlotStep, h]

/-- Inversion of a successful sequential batched step. -/
theorem stepCall_ok_inv {S O A : Type} {v v' : SyncVectorEnv S O A}
    {acts : List A} {b : BatchedTransition O}
    (h : v.stepCall acts = Except.ok (v', b)) :
    v.execState = ExecState.DEFAULT ∧ acts.length = v.envs.length ∧
    v' = ⟨(List.zipWith syncStepEntry v.envs acts).map Prod.fst,
      ExecState.DEFAULT⟩ ∧
    b = batchTransitions ((List.zipWith syncStepEntry v.envs acts).map Prod.snd) := by
  obtain ⟨es, st⟩ := v
  cases st
  case DEFAULT =>
    simp only [SyncVectorEnv.stepCall] at h
    split at h
    next hlen =>
      simp only [Except.ok.injEq, Prod.mk.injEq] at h
      exact ⟨rfl, hlen, h.1.symm, h.2.symm⟩
    next hlen => simp at h
  all_goals simp [SyncVectorEnv.stepCall] at h

/-- Per-slot reading of a successful sequential batched step: slot k of
every batched output is slot k's per-slot step result. -/
theorem stepCall_slot_records {S O A : Type} {v v' : SyncVectorEnv S O A}
    {acts : List A} {b : BatchedTransition O} {k : Nat}
    {p : EnvInstance S O A × EpisodeCore S}
    (h : v.stepCall acts = Except.ok (v', b))
    (hp : v.envs[k]? = some p) :
    ∃ a, acts[k]? = some a ∧
      v'.envs[k]? = some (p.1, (syncSlotStep p.1 p.2 a).1) ∧
      b.observations[k]? = some (syncSlotStep p.1 p.2 a).2.observation ∧
      b.rewards[k]? = some (syncSlotStep p.1 p.2 a).2.reward ∧
      b.terminateds[k]? = some (syncSlotStep p.1 p.2 a).2.terminated ∧
      b.truncateds[k]? = some (syncSlotStep p.1 p.2 a).2.truncated := by
  obtain ⟨hst, hlen, hv', hb⟩ := stepCall_ok_inv h
  subst hv' hb
  have hk : k < v.envs.length := by
    have := List.getElem?_eq_some.mp hp
    exact this.1
  have hka : k < acts.length := by rw [hlen]; exact hk
  obtain ⟨a, ha⟩ : ∃ x, acts[k]? = some x := ⟨_, List.getElem?_eq_getElem hka⟩
  have hL : (List.zipWith syncStepEntry v.envs acts)[k]? =
      some (syncStepEntry p a) := by
    rw [List.getElem?_zipWith_eq_some]
    exact ⟨p, a, hp, ha, rfl⟩
  refine ⟨a, ha, ?_, ?_, ?_, ?_, ?_⟩ <;>
    simp [batchTransitions, List.getElem?_map, hL, syncStepEntry]

/-- C6: the auto-reset policy of the batched contract: a slot whose
previous step reported terminated or truncated is, on the next step call,
reset rather than stepped: its reward is 0, both flags are false, and its
observation is exactly a fresh reset of that slot's instance with the
slot's pending seed. -/
theorem auto_reset_policy {S O A : Type} {v v' v'' : SyncVectorEnv S O A}
    {acts acts' : List A} {b b' : BatchedTransition O} {k : Nat}
    {env : EnvInstance S O A} {core : EpisodeCore S}
    (h1 : v.stepCall acts = Except.ok (v', b))
    (h2 : v'.stepCall acts' = Except.ok (v'', b'))
    (hslot : v'.envs[k]? = some (env, core))
    (hdone : b.terminateds[k]? = some true ∨ b.truncateds[k]? = some true) :
    b'.rewards[k]? = some 0 ∧
    b'.terminateds[k]? = some false ∧
    b'.truncateds[k]? = some false ∧
    b'.observations[k]? = some (env.reset core.pendingSeed).2 := by
  have hslot0 := hslot
  obtain ⟨hst, hlen, hv', hb⟩ := stepCall_ok_inv h1
  subst hv' hb
  rw [show (SyncVectorEnv.mk
      ((List.zipWith syncStepEntry v.envs acts).map Prod.fst)
      ExecState.DEFAULT).envs =
    (List.zipWith syncStepEntry v.envs acts).map Prod.fst from rfl,
    List.getElem?_map] at hslot
  obtain ⟨q, hL, hq1⟩ : ∃ q, (List.zipWith syncStepEntry v.envs acts)[k]? =
      some q ∧ q.1 = (env, core) := by
    cases hc : (List.zipWith syncStepEntry v.envs acts)[k]? with
    | none => rw [hc] at hslot; cases hslot
    | some q => rw [hc] at hslot; exact ⟨q, rfl, Option.some.inj hslot⟩
  rw [List.getElem?_zipWith_eq_some] at hL
  obtain ⟨p, a, hp, ha, rfl⟩ := hL
  simp only [syncStepEntry, Prod.mk.injEq] at hq1
  obtain ⟨henv, hcore⟩ := hq1
  have hLk : (List.zipWith syncStepEntry v.envs acts)[k]? =
      some (syncStepEntry p a) := by
    rw [List.getElem?_zipWith_eq_some]
    exact ⟨p, a, hp, ha, rfl⟩
  have hneed : core.needsReset = true := by
    rw [← hcore, syncSlotStep_needsReset]
    rcases hdone with hd | hd
    · have ht : (syncSlotStep p.1 p.2 a).2.terminated = true := by
        simp [batchTransitions, List.getElem?_map, hLk, syncStepEntry] at hd
        exact hd
      rw [ht, Bool.true_or]
    · have ht : (syncSlotStep p.1 p.2 a).2.truncated = true := by
        simp [batchTransitions, List.getElem?_map, hLk, syncStepEntry] at hd
        exact hd
      rw [ht, Bool.or_true]
  obtain ⟨a2, ha2, hv2, hobs, hrew, hterm2, htrunc2⟩ :=
    stepCall_slot_records h2 hslot0
  rw [syncSlotStep_of_needsReset env core a2 hneed] at hobs hrew hterm2 htrunc2
  exact ⟨hrew, hterm2, htrunc2, hobs⟩

/-- Witness for C6: the one-slot counter instance, stepped past its
terminal count and then stepped again, auto-resets to observation 0 with
reward 0 and cleared flags. -/
theorem auto_reset_policy_witness :
    ((SyncVectorEnv.mk [(counterInstance, ⟨1, false, none⟩)]
        ExecState.DEFAULT).stepCall [0] =
      Except.ok (⟨[(counterInstance, ⟨2, true, none⟩)], ExecState.DEFAULT⟩,
        ⟨[2], [1], [true], [false]⟩)) ∧
    ((SyncVectorEnv.mk [(counterInstance, ⟨2, true, none⟩)]
        ExecState.DEFAULT).stepCall [0] =
      Except.ok (⟨[(counterInstance, ⟨0, false, none⟩)], ExecState.DEFAULT⟩,
        ⟨[0], [0], [false], [false]⟩)) ∧
    ((⟨[0], [0], [false], [false]⟩ : BatchedTransition Nat).rewards[0]? = some 0 ∧
      (⟨[0], [0], [false], [false]⟩ : BatchedTransition Nat).terminateds[0]? =
        some false ∧
      (⟨[0], [0], [false], [false]⟩ : BatchedTransition Nat).truncateds[0]? =
        some false ∧
      (⟨[0], [0], [false], [false]⟩ : BatchedTransition Nat).observations[0]? =
        some (counterInstance.reset none).2) :=
  ⟨rfl, rfl,
    @auto_reset_policy Nat Nat Nat
      ⟨[(counterInstance, ⟨1, false, none⟩)], ExecState.DEFAULT⟩
      ⟨[(counterInstance, ⟨2, true, none⟩)], ExecState.DEFAULT⟩
      ⟨[(counterInstance, ⟨0, false, none⟩)], ExecState.DEFAULT⟩
      [0] [0] ⟨[2], [1], [true], [false]⟩ ⟨[0], [0], [false], [false]⟩ 0
      counterInstance ⟨2, true, none⟩ rfl rfl rfl (Or.inl rfl)⟩

/-- A worker answers RESET exactly as the sequential executor resets the
corresponding slot. -/
theorem workerProcess_RESET {S O A : Type} (e : EnvInstance S O A)
    (c : EpisodeCore S) (seed : Option Nat) :
    workerProcess e c (WorkerCommand.RESET seed) =
      ((syncSlotReset e c seed).1,
       WorkerResponse.obsPayload (syncSlotReset e c seed).2) := rfl

/-- A worker answers STEP exactly as the sequential executor steps the
corresponding slot, including the auto-reset policy. -/
theorem workerProcess_STEP {S O A : Type} (e : EnvInstance S O A)
    (c : EpisodeCore S) (a : A) :
    workerProcess e c (WorkerCommand.STEP a) =
      ((syncSlotStep e c a).1,
       WorkerResponse.transitionPayload (syncSlotStep e c a).2) := by
  rcases hstep : e.step c.state a with ⟨s, o, r, t, tr⟩
  cases h : c.needsReset <;> simp [workerProcess, syncSlotStep, h, hstep]

/-- The slot-ordered RESET responses of the worker pool are the sequential
executor's reset observations, wrapped as payloads. -/
theorem asyncReset_map_snd {S O A : Type} (seed : Option Nat)
    (ws : List (WorkerHandle S O A)) :
    (ws.map (asyncResetEntry seed)).map Prod.snd =
      (((ws.map WorkerHandle.toSlot).map (syncResetEntry seed)).map Prod.snd).map
        WorkerResponse.obsPayload := by
  induction ws with
  | nil => rfl
  | cons w ws ih =>
    simp only [List.map_cons, ih, List.cons.injEq, and_true]
    simp [asyncResetEntry, syncResetEntry, workerProcess_RESET, WorkerHandle.toSlot]

/-- The worker pool's post-RESET per-slot views are the sequential
executor's post-reset slots. -/
theorem asyncReset_map_fst {S O A : Type} (seed : Option Nat)
    (ws : List (WorkerHandle S O A)) :
    ((ws.map (asyncResetEntry seed)).map Prod.fst).map WorkerHandle.toSlot =
      ((ws.map WorkerHandle.toSlot).map (syncResetEntry seed)).map Prod.fst := by
  induction ws with
  | nil => rfl
  | cons w ws ih =>
    simp only [List.map_cons, ih, List.cons.injEq, and_true]
    simp [asyncResetEntry, syncResetEntry, workerProcess_RESET, WorkerHandle.toSlot]

/-- The slot-ordered STEP responses of the worker pool are the sequential
executor's transition records, wrapped as payloads. -/
theorem asyncStep_zip_snd {S O A : Type} (ws : List (WorkerHandle S O A)) :
    ∀ acts : List A,
      (List.zipWith asyncStepEntry ws acts).map Prod.snd =
        ((List.zipWith syncStepEntry (ws.map WorkerHandle.toSlot) acts).map
          Prod.snd).map WorkerResponse.transitionPayload := by
  induction ws with
  | nil => intro acts; rfl
  | cons w ws ih =>
    intro acts
    cases acts with
    | nil => rfl
    | cons a acts =>
      simp only [List.map_cons, List.zipWith_cons_cons, ih, List.cons.injEq,
        and_true]
      simp [asyncStepEntry, syncStepEntry, workerProcess_STEP, WorkerHandle.toSlot]

/-- The worker pool's post-STEP per-slot views are the sequential
executor's post-step slots. -/
theorem asyncStep_zip_fst {S O A : Type} (ws : List (WorkerHandle S O A)) :
    ∀ acts : List A,
      ((List.zipWith asyncStepEntry ws acts).map Prod.fst).map
          WorkerHandle.toSlot =
        (List.zipWith syncStepEntry (ws.map WorkerHandle.toSlot) acts).map
          Prod.fst := by
  induction ws with
  | nil => intro acts; rfl
  | cons w ws ih =>
    intro acts
    cases acts with
    | nil => rfl
    | cons a acts =>
      simp only [List.map_cons, List.zipWith_cons_cons, ih, List.cons.injEq,
        and_true]
      simp [asyncStepEntry, syncStepEntry, workerProcess_STEP, WorkerHandle.toSlot]

/-- Decoding a pure list of observation payloads always succeeds. -/
theorem decodeObservations_map_obsPayload {O : Type} (os : List O) :
    decodeObservations (os.map WorkerResponse.obsPayload) = some os := by
  induction os with
  | nil => rfl
  | cons o os ih => simp [decodeObservations, ih]

/-- Decoding a pure list of transition payloads always succeeds. -/
theorem decodeTransitions_map_transitionPayload {O : Type}
    (rs : List (TransitionRecord O)) :
    decodeTransitions (rs.map WorkerResponse.transitionPayload) = some rs := by
  induction rs with
  | nil => rfl
  | cons r rs ih => simp [decodeTransitions, ih]

/-- Both executors built from the same instances start in corresponding
states. -/
theorem initAsync_toSync {S O A : Type} (insts : List (EnvInstance S O A)) :
    (initAsync insts).toSync = initSync insts := by
  simp [initAsync, initSync, AsyncVectorEnv.toSync, WorkerHandle.toSlot,
    List.map_map, Function.comp]

/-- The parallel executor's batched reset is simulated, step for step, by
the sequential executor's: same result up to the per-slot view. -/
theorem resetCall_toSync {S O A : Type} (v : AsyncVectorEnv S O A)
    (seed : Option Nat) :
    v.toSync.resetCall seed =
      Except.map (fun p => (p.1.toSync, p.2)) (v.resetCall seed) := by
  obtain ⟨ws, st⟩ := v
  cases st
  case DEFAULT =>
    dsimp only [AsyncVectorEnv.toSync, SyncVectorEnv.resetCall,
      AsyncVectorEnv.resetCall]
    rw [asyncReset_map_snd, decodeObservations_map_obsPayload]
    dsimp only [Except.map, AsyncVectorEnv.toSync]
    rw [asyncReset_map_fst]
  all_goals rfl

/-- The parallel executor's batched step is simulated, step for step, by
the sequential executor's: same result up to the per-slot view. -/
theorem stepCall_toSync {S O A : Type} (v : AsyncVectorEnv S O A)
    (acts : List A) :
    v.toSync.stepCall acts =
      Except.map (fun p => (p.1.toSync, p.2)) (v.stepCall acts) := by
  obtain ⟨ws, st⟩ := v
  cases st
  case DEFAULT =>
    dsimp only [AsyncVectorEnv.toSync, SyncVectorEnv.stepCall,
      AsyncVectorEnv.stepCall]
    simp only [List.length_map]
    by_cases hlen : acts.length = ws.length
    · rw [if_pos hlen, if_pos hlen]
      rw [asyncStep_zip_snd, decodeTransitions_map_transitionPayload]
      dsimp only [Except.map, AsyncVectorEnv.toSync]
      rw [asyncStep_zip_fst]
    · rw [if_neg hlen, if_neg hlen]
      rfl
  all_goals rfl

/-- A whole sequence of batched step calls on corresponding states yields
identical batched transitions. -/
theorem runAsync_toSync {S O A : Type} (seqs : List (List A)) :
    ∀ v : AsyncVectorEnv S O A,
      runSync v.toSync seqs =
        Except.map (fun p => (p.1.toSync, p.2)) (runAsync v seqs) := by
  induction seqs with
  | nil => intro v; rfl
  | cons acts rest ih =>
    intro v
    dsimp only [runSync, runAsync]
    rw [stepCall_toSync]
    cases h : v.stepCall acts with
    | error e => rfl
    | ok p =>
      dsimp only [Except.map]
      rw [ih p.1]
      cases h2 : runAsync p.1 rest with
      | error e => rfl
      | ok q => rfl

/-- C1: for N ≥ 1 instances and any sequence of action batches, the
sequential and the parallel executor, built from the same deterministic
instances per slot, produce exactly the same caller-observable trace:
identical batched observations, rewards and terminated/truncated flags
(and identical failures). -/
theorem sync_async_identical {S O A : Type} (insts : List (EnvInstance S O A))
    (seed : Option Nat) (actionSeqs : List (List A))
    (hN : 1 ≤ insts.length) :
    syncRollout insts seed actionSeqs = asyncRollout insts seed actionSeqs := by
  unfold syncRollout asyncRollout
  rw [← initAsync_toSync, resetCall_toSync]
  cases hr : (initAsync insts).resetCall seed with
  | error e => rfl
  | ok p =>
    dsimp only [Except.map]
    rw [runAsync_toSync]
    cases h2 : runAsync p.1 actionSeqs with
    | error e => rfl
    | ok q => rfl

/-- Witness for C1: three counter instances, a reset and three batched
steps; both executors produce the same trace. -/
theorem sync_async_identical_witness :
    1 ≤ ([counterInstance, counterInstance, counterInstance] :
        List (EnvInstance Nat Nat Nat)).length ∧
    syncRollout [counterInstance, counterInstance, counterInstance] none
        [[0, 0, 0], [0, 0, 0], [0, 0, 0]] =
      asyncRollout [counterInstance, counterInstance, counterInstance] none
        [[0, 0, 0], [0, 0, 0], [0, 0, 0]] :=
  ⟨by decide,
    sync_async_identical [counterInstance, counterInstance, counterInstance]
      none [[0, 0, 0], [0, 0, 0], [0, 0, 0]] (by decide)⟩

end GymVector
